import Mathlib

/-
Verification of the `distance_matrix` package: a shallow embedding of its
data model, pair generator, distance calculators and executor variants,
followed by theorems about them.

Conventions of the embedding:
- Python floats used only for range validation are modelled as ℚ (the checks
  are exact comparisons); the trigonometric distance formulas are modelled
  over ℝ.
- A distance calculator that may raise is modelled as returning
  `Option α` (`none` = the call raised).
- `queue.Queue` is modelled as a list: `put` appends at the back, the drain
  loop (`while not queue.empty(): queue.get()`) reads front to back.
- A concurrent executor is parameterized by a `schedule`: the order in which
  the workers' `put` calls reach the results queue.  Every admissible
  scheduling realizes some permutation of the generated task list, so the
  theorems quantify over all permutations of it.
- Thread/process lifecycle is made explicit with `WorkerStatus`: a worker is
  `live` from its `start()` and `terminated` once it exits (joined threads
  and processes terminate; the pool's `while True` daemon workers never do).
-/

namespace DistanceMatrix

/-! ## models/coordinates.py -/

/-- pydantic raises a `ValidationError` carrying one message per failed
field validator; modelled as the list of messages. -/
abbrev ValidationError := List String

/-- `Coordinates` (models/coordinates.py): a latitude/longitude record. -/
structure Coordinates where
  latitude : ℚ
  longitude : ℚ
deriving DecidableEq

/-- The `latitude` field validator of `Coordinates`. -/
def latitude_must_be_valid (v : ℚ) : Except String ℚ :=
  if -90 ≤ v ∧ v ≤ 90 then Except.ok v
  else Except.error "Latitude must be between -90 and 90 inclusive"

/-- The `longitude` field validator of `Coordinates`. -/
def longitude_must_be_valid (v : ℚ) : Except String ℚ :=
  if -180 ≤ v ∧ v ≤ 180 then Except.ok v
  else Except.error "Longitude must be between -180 and 180 inclusive"

/-- Construction of a `Coordinates` value: pydantic runs every field
validator and raises one `ValidationError` collecting the failures. -/
def Coordinates.construct (latitude longitude : ℚ) :
    Except ValidationError Coordinates :=
  match latitude_must_be_valid latitude, longitude_must_be_valid longitude with
  | Except.ok la, Except.ok lo => Except.ok { latitude := la, longitude := lo }
  | Except.error e, Except.ok _ => Except.error [e]
  | Except.ok _, Except.error e => Except.error [e]
  | Except.error e1, Except.error e2 => Except.error [e1, e2]

/-! ## models/location.py -/

/-- `Location` (models/location.py): a named point. -/
structure Location where
  name : String
  coordinates : Coordinates
deriving DecidableEq

/-! ## models/output.py

Modelled from the spec: `models/output.py` itself is not among the staged
files; the spec's ResultRecord (`§3`) and the module's callers
(`executors.py`, `outputs.py`, which build `Output(origin, destination,
distance)` and read `.origin`, `.destination`, `.distance`) fix its shape. -/

/-- `Output`: one result record `(origin, destination, distance)`. -/
structure Output (α : Type) where
  origin : String
  destination : String
  distance : α
deriving DecidableEq

/-! ## utils.py -/

/-- The loop body of `permutations` (utils.py).  `existing` is the list of
items seen so far; `count` always equals `len(existing)` when the slice
`existing[:count]` is taken, so the slice is `existing` itself.  For each
newly drawn `first`, the generator yields `(second, first)` for every
`second` already seen, then appends `first` to `existing`. -/
def permutations_loop {α : Type} (existing : List α) : List α → List (α × α)
  | [] => []
  | first :: rest =>
      existing.map (fun second => (second, first)) ++
        permutations_loop (existing ++ [first]) rest

/-- `permutations` (utils.py): all unordered pairs of the input, each pair
ordered by position in the input. -/
def permutations {α : Type} (iterable : List α) : List (α × α) :=
  permutations_loop [] iterable

/-- The loop body of `permutations_async` (utils.py); the algorithm is the
same as `permutations`, consuming an asynchronous stream instead. -/
def permutations_async_loop {α : Type} (existing : List α) :
    List α → List (α × α)
  | [] => []
  | first :: rest =>
      existing.map (fun second => (second, first)) ++
        permutations_async_loop (existing ++ [first]) rest

/-- `permutations_async` (utils.py) applied to the (finite) stream of items
the calculate stage has consumed so far. -/
def permutations_async {α : Type} (iterable : List α) : List (α × α) :=
  permutations_async_loop [] iterable

/-! ## Index orders used to state the generation-order claims. -/

/-- Modelled from the spec: the canonical order of `§4.1` on index pairs —
for `i` from `0` to `N-2`, for `j` from `i+1` to `N-1`, emit `(i, j)`. -/
def canonical_spec_order (n : Nat) : List (Nat × Nat) :=
  (List.range n).flatMap (fun i => ((List.range n).drop (i + 1)).map (fun j => (i, j)))

/-- The index order the source generator actually emits: for `j` from `0`
to `N-1`, for `i` from `0` to `j-1`, emit `(i, j)` (new item last). -/
def generation_order (n : Nat) : List (Nat × Nat) :=
  (List.range n).flatMap (fun j => (List.range j).map (fun i => (i, j)))

/-- `triangle n` = number of pairs `0+1+...+(n-1)`, the loop's yield count. -/
def triangle : Nat → Nat
  | 0 => 0
  | n + 1 => triangle n + n

/-! ## executors.py -/

/-- `basic_executor` (executors.py): sequential loop over `permutations`,
appending one `Output` per pair. -/
def basic_executor {α : Type} (calculator : Coordinates → Coordinates → α)
    (locations : List Location) : List (Output α) :=
  (permutations locations).foldl
    (fun output_records pair =>
      output_records ++
        [{ origin := pair.1.name, destination := pair.2.name,
           distance := calculator pair.1.coordinates pair.2.coordinates }])
    []

/-- `calculate_threaded` (executors.py): the body each worker runs for one
pair; it puts one `Output` on the results queue, or nothing when the
calculator raises (`none`). -/
def calculate_threaded {α : Type} (calculator : Coordinates → Coordinates → Option α)
    (locations : Location × Location) : Option (Output α) :=
  match calculator locations.1.coordinates locations.2.coordinates with
  | some distance =>
      some { origin := locations.1.name, destination := locations.2.name,
             distance := distance }
  | none => none

/-- The contents of the results queue after the workers' `put` calls have
happened in `schedule` order (a raising task puts nothing). -/
def run_puts {α : Type} (calculator : Coordinates → Coordinates → Option α)
    (schedule : List (Location × Location)) : List (Output α) :=
  schedule.foldl
    (fun results_queue pair =>
      match calculate_threaded calculator pair with
      | some out => results_queue ++ [out]
      | none => results_queue)
    []

/-- The executors' drain loop: `while not results_queue.empty():
output_records.append(results_queue.get())`. -/
def drain_loop {β : Type} (output_records : List β) : List β → List β
  | [] => output_records
  | out :: rest => drain_loop (output_records ++ [out]) rest

/-- Drain the results queue front to back into `output_records`. -/
def drain {β : Type} (results_queue : List β) : List β :=
  drain_loop [] results_queue

/-- Lifecycle of one worker thread or process. -/
inductive WorkerStatus where
  | live : WorkerStatus
  | terminated : WorkerStatus
deriving DecidableEq

/-- What a run of `threaded_executor` leaves behind: the returned records
and the final status of every thread it spawned. -/
structure ThreadedRun (α : Type) where
  output_records : List (Output α)
  threads : List WorkerStatus
deriving DecidableEq

/-- `threaded_executor` (executors.py): one thread per pair, all started,
all joined, then the results queue is drained. -/
def threaded_executor {α : Type} (calculator : Coordinates → Coordinates → Option α)
    (locations : List Location) (schedule : List (Location × Location)) :
    ThreadedRun α :=
  let pairs := permutations locations
  let threads_started := pairs.map (fun _ => WorkerStatus.live)
  let results_queue := run_puts calculator schedule
  let threads_joined := threads_started.map (fun _ => WorkerStatus.terminated)
  { output_records := drain results_queue, threads := threads_joined }

/-- `ThreadPool` (concurrency/thread_pool.py): `count` daemon worker
threads looping `while True` over a shared task queue; `tasks_pending` is
the outstanding-task count that `tasks.join()` waits on. -/
structure ThreadPool where
  count : Nat
  tasks_pending : Nat
  threads : List WorkerStatus
deriving DecidableEq

/-- `ThreadPool.__init__`: starts `count` long-lived daemon workers; the
task queue starts empty. -/
def ThreadPool.start (count : Nat) : ThreadPool :=
  { count := count, tasks_pending := 0,
    threads := List.replicate count WorkerStatus.live }

/-- `_THREAD_POOL = ThreadPool(2)` (executors.py, module level). -/
def _THREAD_POOL : ThreadPool := ThreadPool.start 2

/-- One iteration of `_run_thread` (concurrency/thread_pool.py): run the
task's function; an exception is caught and printed; `task_done()` runs in
the `finally` block either way, so the pending count always drops. -/
def run_thread_step {α : Type} (calculator : Coordinates → Coordinates → Option α)
    (st : List (Output α) × Nat) (pair : Location × Location) :
    List (Output α) × Nat :=
  (match calculate_threaded calculator pair with
   | some out => st.1 ++ [out]
   | none => st.1,
   st.2 - 1)

/-- What a run of `threadpool_executor` leaves behind: the returned records
and the state of the (module-global) pool at return. -/
structure ThreadpoolRun (α : Type) where
  output_records : List (Output α)
  pool : ThreadPool
deriving DecidableEq

/-- `threadpool_executor` (executors.py): enqueue one task per pair on the
global pool, block on `wait_for_completion()` (returns once the pending
count is zero), then drain the results queue.  The pool's daemon workers
stay in their `while True` loop: nothing joins or stops them. -/
def threadpool_executor {α : Type} (calculator : Coordinates → Coordinates → Option α)
    (locations : List Location) (schedule : List (Location × Location))
    (pool : ThreadPool) : ThreadpoolRun α :=
  let pairs := permutations locations
  let pending_after_add := pool.tasks_pending + pairs.length
  let final := schedule.foldl (run_thread_step calculator) ([], pending_after_add)
  { output_records := drain final.1,
    pool := { pool with tasks_pending := final.2 } }

/-- What a run of `multiprocessing_executor` leaves behind: the returned
records, the final status of every spawned process, and how many processes
were live at the moment the spawn loop finished (the join barrier). -/
structure MultiprocessingRun (α : Type) where
  output_records : List (Output α)
  processes : List WorkerStatus
  live_at_barrier : Nat
deriving DecidableEq

/-- `multiprocessing_executor` (executors.py): one process per pair, all
started by the first loop (so all are live when the join loop begins), all
joined, then the results queue is drained. -/
def multiprocessing_executor {α : Type}
    (calculator : Coordinates → Coordinates → Option α)
    (locations : List Location) (schedule : List (Location × Location)) :
    MultiprocessingRun α :=
  let pairs := permutations locations
  let spawned := pairs.foldl
    (fun (st : Nat × List WorkerStatus) _ => (st.1 + 1, st.2 ++ [WorkerStatus.live]))
    (0, [])
  let results_queue := run_puts calculator schedule
  let joined := spawned.2.map (fun _ => WorkerStatus.terminated)
  { output_records := drain results_queue, processes := joined,
    live_at_barrier := spawned.1 }

/-! ## async_runner.py -/

/-- The records the calculate stage (`_calculate_task`, async_runner.py)
has pushed to its output queue once it has consumed exactly the locations
in `consumed`: `permutations_async` pairs every newly read point with all
prior points and each resulting record is produced immediately. -/
def _calculate_task {α : Type} (calculator : Coordinates → Coordinates → α)
    (consumed : List Location) : List (Output α) :=
  (permutations_async consumed).map
    (fun pair =>
      { origin := pair.1.name, destination := pair.2.name,
        distance := calculator pair.1.coordinates pair.2.coordinates })

/-! ## calculators.py -/

/-- `DEFAULT_EARTH_RADIUS_KM` (calculators.py). -/
def DEFAULT_EARTH_RADIUS_KM : ℚ := 6371.0088

/-- `math.radians`: degrees to radians. -/
noncomputable def radians (degrees : ℚ) : ℝ := (degrees : ℝ) * Real.pi / 180

/-- `equirectangular` (calculators.py) as the source writes it: note that
`x` is `lng2 - lng1 * cos((lat1 + lat2) / 2)` — the subtraction is NOT
parenthesized, so only `lng1` is scaled by the cosine. -/
noncomputable def equirectangular (earth_radius_km : ℚ) (p1 p2 : Coordinates) : ℝ :=
  let lat1 := radians p1.latitude
  let lng1 := radians p1.longitude
  let lat2 := radians p2.latitude
  let lng2 := radians p2.longitude
  let x := lng2 - lng1 * Real.cos ((lat1 + lat2) / 2)
  let y := lat2 - lat1
  Real.sqrt (x * x + y * y) * (earth_radius_km : ℝ)

/-- Modelled from the spec: the planar small-angle (equirectangular)
approximation the spec documents, `d = R * sqrt((Δλ * cos((φ1+φ2)/2))^2 +
Δφ^2)`, i.e. with the longitude difference parenthesized before scaling. -/
noncomputable def equirectangular_spec (earth_radius_km : ℚ) (p1 p2 : Coordinates) : ℝ :=
  let lat1 := radians p1.latitude
  let lng1 := radians p1.longitude
  let lat2 := radians p2.latitude
  let lng2 := radians p2.longitude
  let x := (lng2 - lng1) * Real.cos ((lat1 + lat2) / 2)
  let y := lat2 - lat1
  Real.sqrt (x * x + y * y) * (earth_radius_km : ℝ)

/-! ## Concrete sample data for witnesses and counterexamples. -/

/-- Sample point A (spec `§8` scenario). -/
def location_A : Location :=
  { name := "A", coordinates := { latitude := 0, longitude := 0 } }

/-- Sample point B (spec `§8` scenario). -/
def location_B : Location :=
  { name := "B", coordinates := { latitude := 0, longitude := 90 } }

/-- Sample point C (spec `§8` scenario). -/
def location_C : Location :=
  { name := "C", coordinates := { latitude := 45, longitude := 45 } }

/-- Sample point D, used to form a four-point input. -/
def location_D : Location :=
  { name := "D", coordinates := { latitude := -45, longitude := -45 } }

/-- The spec `§8` three-point input. -/
def sample_locations : List Location := [location_A, location_B, location_C]

/-- A four-point input (6 pairs). -/
def four_locations : List Location :=
  [location_A, location_B, location_C, location_D]

/-- A trivial total calculator for witnesses. -/
def zero_calculator : Coordinates → Coordinates → Nat := fun _ _ => 0

/-- A calculator that raises exactly on the pair (A, B): its worker task
fails and produces no record. -/
def fails_on_AB : Coordinates → Coordinates → Option Nat := fun p q =>
  if p = location_A.coordinates ∧ q = location_B.coordinates then none
  else some 7

/-- The coordinate (60°, 180°) used to exhibit the equirectangular slip. -/
def point_60_180 : Coordinates := { latitude := 60, longitude := 180 }

/-! ## Helper lemmas -/

theorem permutations_async_loop_eq {α : Type} (existing l : List α) :
    permutations_async_loop existing l = permutations_loop existing l := by
  induction l generalizing existing with
  | nil => rfl
  | cons first rest ih => simp [permutations_loop, permutations_async_loop, ih]

theorem permutations_async_eq {α : Type} (l : List α) :
    permutations_async l = permutations l :=
  permutations_async_loop_eq [] l

theorem permutations_loop_append {α : Type} (ex l1 l2 : List α) :
    permutations_loop ex (l1 ++ l2) =
      permutations_loop ex l1 ++ permutations_loop (ex ++ l1) l2 := by
  induction l1 generalizing ex with
  | nil => simp [permutations_loop]
  | cons first rest ih => simp [permutations_loop, ih, List.append_assoc]

theorem permutations_loop_single {α : Type} (ex : List α) (x : α) :
    permutations_loop ex [x] = ex.map (fun second => (second, x)) := by
  simp [permutations_loop]

theorem permutations_loop_length {α : Type} (ex l : List α) :
    (permutations_loop ex l).length = ex.length * l.length + triangle l.length := by
  induction l generalizing ex with
  | nil => simp [permutations_loop, triangle]
  | cons first rest ih =>
      simp only [permutations_loop, List.length_append, List.length_map, ih,
        List.length_cons, triangle, List.length_nil]
      ring

theorem permutations_length {α : Type} (l : List α) :
    (permutations l).length = triangle l.length := by
  simpa using permutations_loop_length [] l

theorem two_mul_triangle (n : Nat) : 2 * triangle n = n * (n - 1) := by
  induction n with
  | zero => rfl
  | succ m ih =>
      have h : 2 * triangle (m + 1) = 2 * triangle m + 2 * m := by
        simp [triangle]; ring
      rw [h, ih]
      cases m with
      | zero => rfl
      | succ p => simp [Nat.succ_sub_one]; ring

theorem triangle_eq (n : Nat) : triangle n = n * (n - 1) / 2 := by
  rw [← two_mul_triangle n]
  exact (Nat.mul_div_cancel_left (triangle n) (by norm_num)).symm

theorem permutations_loop_map {α β : Type} (f : α → β) (ex l : List α) :
    permutations_loop (ex.map f) (l.map f) =
      (permutations_loop ex l).map (Prod.map f f) := by
  induction l generalizing ex with
  | nil => rfl
  | cons first rest ih =>
      have key : permutations_loop (ex.map f ++ [f first]) (rest.map f) =
          (permutations_loop (ex ++ [first]) rest).map (Prod.map f f) := by
        rw [show ex.map f ++ [f first] = (ex ++ [first]).map f by simp]
        exact ih (ex ++ [first])
      simp only [List.map_cons, permutations_loop, key, List.map_append,
        List.map_map]
      rfl

theorem permutations_map {α β : Type} (f : α → β) (l : List α) :
    permutations (l.map f) = (permutations l).map (Prod.map f f) := by
  simpa [permutations] using permutations_loop_map f [] l

theorem permutations_range (n : Nat) :
    permutations (List.range n) = generation_order n := by
  induction n with
  | zero => rfl
  | succ m ih =>
      rw [List.range_succ]
      unfold permutations at ih ⊢
      rw [permutations_loop_append, ih]
      simp [generation_order, List.range_succ, permutations_loop_single]

theorem mem_generation_order (n i j : Nat) :
    (i, j) ∈ generation_order n ↔ i < j ∧ j < n := by
  simp only [generation_order, List.mem_flatMap, List.mem_map, List.mem_range]
  constructor
  · rintro ⟨a, ha, b, hb, h⟩
    obtain ⟨rfl, rfl⟩ := Prod.mk.injEq .. ▸ h
    omega
  · rintro ⟨hij, hjn⟩
    exact ⟨j, hjn, i, hij, rfl⟩

theorem nodup_generation_order (n : Nat) : (generation_order n).Nodup := by
  rw [generation_order, List.nodup_flatMap]
  constructor
  · intro j _
    exact (List.nodup_range j).map fun a b h => congrArg Prod.fst h
  · refine (List.pairwise_lt_range n).imp ?_
    intro a b hab x hxa hxb
    simp only [List.mem_map, List.mem_range] at hxa hxb
    obtain ⟨i, _, rfl⟩ := hxa
    obtain ⟨i2, _, h⟩ := hxb
    have : a = i2 ∧ b = i := by
      have h1 := congrArg Prod.snd h
      have h2 := congrArg Prod.fst h
      simp at h1 h2
      omega
    omega

theorem foldl_append_map {β γ : Type} (f : β → γ) (l : List β) (init : List γ) :
    l.foldl (fun acc b => acc ++ [f b]) init = init ++ l.map f := by
  induction l generalizing init with
  | nil => simp
  | cons b rest ih => simp [ih]

theorem run_puts_eq {α : Type} (calculator : Coordinates → Coordinates → Option α)
    (schedule : List (Location × Location)) :
    run_puts calculator schedule =
      schedule.filterMap (calculate_threaded calculator) := by
  have general : ∀ (l : List (Location × Location)) (init : List (Output α)),
      l.foldl
        (fun results_queue pair =>
          match calculate_threaded calculator pair with
          | some out => results_queue ++ [out]
          | none => results_queue) init =
        init ++ l.filterMap (calculate_threaded calculator) := by
    intro l
    induction l with
    | nil => simp
    | cons p rest ih =>
        intro init
        cases h : calculate_threaded calculator p <;>
          simp [List.filterMap_cons, h, ih]
  simpa [run_puts] using general schedule []

theorem drain_loop_eq {β : Type} (acc q : List β) : drain_loop acc q = acc ++ q := by
  induction q generalizing acc with
  | nil => simp [drain_loop]
  | cons x rest ih => simp [drain_loop, ih]

theorem drain_eq {β : Type} (q : List β) : drain q = q := by
  simpa [drain] using drain_loop_eq [] q

theorem foldl_run_thread_step {α : Type}
    (calculator : Coordinates → Coordinates → Option α)
    (sched : List (Location × Location)) (q : List (Output α)) (p : Nat) :
    sched.foldl (run_thread_step calculator) (q, p) =
      (q ++ sched.filterMap (calculate_threaded calculator), p - sched.length) := by
  induction sched generalizing q p with
  | nil => simp
  | cons pair rest ih =>
      cases h : calculate_threaded calculator pair <;>
        simp [run_thread_step, h, ih, List.filterMap_cons] <;>
        omega

theorem map_const_replicate {β γ : Type} (l : List β) (c : γ) :
    l.map (fun _ => c) = List.replicate l.length c := by
  induction l with
  | nil => rfl
  | cons b rest ih => simp [ih, List.replicate_succ]

theorem spawn_fold {β : Type} (l : List β) :
    l.foldl
        (fun (st : Nat × List WorkerStatus) _ =>
          (st.1 + 1, st.2 ++ [WorkerStatus.live])) (0, []) =
      (l.length, List.replicate l.length WorkerStatus.live) := by
  have general : ∀ (l : List β) (k : Nat) (ws : List WorkerStatus),
      l.foldl (fun (st : Nat × List WorkerStatus) _ =>
          (st.1 + 1, st.2 ++ [WorkerStatus.live])) (k, ws) =
        (k + l.length, ws ++ List.replicate l.length WorkerStatus.live) := by
    intro l
    induction l with
    | nil => simp
    | cons b rest ih =>
        intro k ws
        simp [ih, List.replicate_succ]
        omega
  simpa using general l 0 []

theorem filterMap_total {β γ : Type} (f : β → γ) (l : List β) :
    l.filterMap (fun b => some (f b)) = l.map f := by
  induction l with
  | nil => rfl
  | cons b rest ih => simp [List.filterMap_cons, ih]

theorem basic_executor_eq_map {α : Type}
    (calculator : Coordinates → Coordinates → α) (locations : List Location) :
    basic_executor calculator locations =
      (permutations locations).map
        (fun pair =>
          { origin := pair.1.name, destination := pair.2.name,
            distance := calculator pair.1.coordinates pair.2.coordinates }) := by
  simpa [basic_executor] using
    foldl_append_map
      (fun pair : Location × Location =>
        ({ origin := pair.1.name, destination := pair.2.name,
           distance := calculator pair.1.coordinates pair.2.coordinates } :
          Output α))
      (permutations locations) []

theorem construct_eq (lat lng : ℚ) :
    Coordinates.construct lat lng =
      if -90 ≤ lat ∧ lat ≤ 90 then
        if -180 ≤ lng ∧ lng ≤ 180 then
          Except.ok { latitude := lat, longitude := lng }
        else Except.error ["Longitude must be between -180 and 180 inclusive"]
      else
        if -180 ≤ lng ∧ lng ≤ 180 then
          Except.error ["Latitude must be between -90 and 90 inclusive"]
        else
          Except.error ["Latitude must be between -90 and 90 inclusive",
            "Longitude must be between -180 and 180 inclusive"] := by
  unfold Coordinates.construct latitude_must_be_valid longitude_must_be_valid
  by_cases hla : -90 ≤ lat ∧ lat ≤ 90 <;>
    by_cases hlo : -180 ≤ lng ∧ lng ≤ 180 <;>
    simp [hla, hlo]

/-! ## Claim theorems -/

/-- C2: for every input of length N the pair generator yields exactly
N·(N-1)/2 pairs; on the index input `List.range n` the emitted pairs are
exactly the combinations without repetition, i.e. the set
of pairs (i, j) with i < j < n, with no index pair repeated; and for
N = 0 or N = 1 it yields the empty sequence. -/
theorem C2_pair_generator_counts {α : Type} (l : List α) (n : Nat) :
    (permutations l).length = l.length * (l.length - 1) / 2
    ∧ (permutations (List.range n)).Nodup
    ∧ (∀ i j : Nat, (i, j) ∈ permutations (List.range n) ↔ i < j ∧ j < n)
    ∧ permutations ([] : List α) = []
    ∧ (∀ x : α, permutations [x] = []) := by
  refine ⟨?_, ?_, ?_, rfl, fun x => rfl⟩
  · rw [permutations_length, triangle_eq]
  · rw [permutations_range]
    exact nodup_generation_order n
  · intro i j
    rw [permutations_range]
    exact mem_generation_order n i j

/-- C3 counterexample: on a 4-item input the generator's third emitted pair
is (item 1, item 2), while the spec's §4.1 i-outer canonical order puts
(item 0, item 3) third, so the emitted sequence is not the §4.1 order. -/
theorem C3_counterexample :
    (permutations (List.range 4))[2]? = some (1, 2)
    ∧ (canonical_spec_order 4)[2]? = some (0, 3)
    ∧ permutations (List.range 4) ≠ canonical_spec_order 4 := by
  decide

/-- C3 (amended): the generator emits its pairs grouped by the second
element — for j from 0 to N-1, for i from 0 to j-1, emit
(item i, item j) — which is `generation_order` on the index input; the
generator is natural in the items, so the emission order on any input is
the image of the emission order on its indices. -/
theorem C3_generation_order_amended {α β : Type} (n : Nat) (f : α → β)
    (l : List α) :
    permutations (List.range n) = generation_order n
    ∧ permutations (l.map f) = (permutations l).map (Prod.map f f) :=
  ⟨permutations_range n, permutations_map f l⟩

/-- C4: the sequential executor returns exactly one record per generated
pair, in the generator's emission order: the k-th record's origin and
destination are the k-th pair's names and its distance is the calculator
applied to that pair's coordinates. -/
theorem C4_basic_executor_order {α : Type}
    (calculator : Coordinates → Coordinates → α) (locations : List Location) :
    basic_executor calculator locations =
      (permutations locations).map
        (fun pair =>
          { origin := pair.1.name, destination := pair.2.name,
            distance := calculator pair.1.coordinates pair.2.coordinates }) :=
  basic_executor_eq_map calculator locations

/-- C5: constructing a Coordinates value fails with a ValidationError
exactly when the latitude is outside [-90, 90] or the longitude outside
[-180, 180]; a successful construction returns the given values unchanged,
and the boundary values -90, 90, -180, 180 and 0 succeed. -/
theorem C5_coordinates_validation (latitude longitude : ℚ) :
    ((∃ c, Coordinates.construct latitude longitude = Except.ok c) ↔
      (-90 ≤ latitude ∧ latitude ≤ 90 ∧ -180 ≤ longitude ∧ longitude ≤ 180))
    ∧ (∀ c, Coordinates.construct latitude longitude = Except.ok c →
        c.latitude = latitude ∧ c.longitude = longitude)
    ∧ (¬ (-90 ≤ latitude ∧ latitude ≤ 90 ∧
          -180 ≤ longitude ∧ longitude ≤ 180) →
        ∃ e : ValidationError,
          Coordinates.construct latitude longitude = Except.error e ∧ e ≠ [])
    ∧ Coordinates.construct (-90) (-180) =
        Except.ok { latitude := -90, longitude := -180 }
    ∧ Coordinates.construct 90 180 =
        Except.ok { latitude := 90, longitude := 180 }
    ∧ Coordinates.construct 0 0 =
        Except.ok { latitude := 0, longitude := 0 } := by
  refine ⟨?_, ?_, ?_, by rw [construct_eq]; norm_num,
    by rw [construct_eq]; norm_num, by rw [construct_eq]; norm_num⟩
  · rw [construct_eq]
    by_cases hla : -90 ≤ latitude ∧ latitude ≤ 90 <;>
      by_cases hlo : -180 ≤ longitude ∧ longitude ≤ 180 <;>
      simp [hla, hlo]
  · rw [construct_eq]
    by_cases hla : -90 ≤ latitude ∧ latitude ≤ 90 <;>
      by_cases hlo : -180 ≤ longitude ∧ longitude ≤ 180 <;>
      simp [hla, hlo]
  · rw [construct_eq]
    by_cases hla : -90 ≤ latitude ∧ latitude ≤ 90 <;>
      by_cases hlo : -180 ≤ longitude ∧ longitude ≤ 180 <;>
      simp [hla, hlo]

theorem threaded_executor_output {α : Type}
    (calculator : Coordinates → Coordinates → Option α)
    (locations : List Location) (schedule : List (Location × Location)) :
    (threaded_executor calculator locations schedule).output_records =
      schedule.filterMap (calculate_threaded calculator) := by
  simp [threaded_executor, run_puts_eq, drain_eq]

theorem multiprocessing_executor_output {α : Type}
    (calculator : Coordinates → Coordinates → Option α)
    (locations : List Location) (schedule : List (Location × Location)) :
    (multiprocessing_executor calculator locations schedule).output_records =
      schedule.filterMap (calculate_threaded calculator) := by
  simp [multiprocessing_executor, run_puts_eq, drain_eq]

theorem threadpool_executor_output {α : Type}
    (calculator : Coordinates → Coordinates → Option α)
    (locations : List Location) (schedule : List (Location × Location))
    (pool : ThreadPool) :
    (threadpool_executor calculator locations schedule pool).output_records =
      schedule.filterMap (calculate_threaded calculator) := by
  simp [threadpool_executor, foldl_run_thread_step, drain_eq]

theorem threadpool_executor_pending {α : Type}
    (calculator : Coordinates → Coordinates → Option α)
    (locations : List Location) (schedule : List (Location × Location))
    (pool : ThreadPool) :
    (threadpool_executor calculator locations schedule pool).pool.tasks_pending =
      pool.tasks_pending + (permutations locations).length - schedule.length := by
  simp [threadpool_executor, foldl_run_thread_step]

theorem filterMap_sched_perm_basic {α : Type}
    (calculator : Coordinates → Coordinates → α) (locations : List Location)
    (schedule : List (Location × Location))
    (h : schedule.Perm (permutations locations)) :
    (schedule.filterMap
        (calculate_threaded (fun p q => some (calculator p q)))).Perm
      (basic_executor calculator locations) := by
  have htotal : (permutations locations).filterMap
      (calculate_threaded (fun p q => some (calculator p q))) =
      basic_executor calculator locations := by
    rw [basic_executor_eq_map]
    exact filterMap_total _ _
  exact htotal ▸ h.filterMap _

/-- C1: with a never-raising calculator, under every admissible scheduling
— modelled as an arbitrary permutation of the generated task list giving
the order in which the workers' results reach the shared queue — the
thread-per-pair, worker-pool and multi-process executors each return a
multiset of records equal to the sequential executor's output. -/
theorem C1_cross_variant_equivalence {α : Type}
    (calculator : Coordinates → Coordinates → α) (locations : List Location)
    (sched1 sched2 sched3 : List (Location × Location))
    (h1 : sched1.Perm (permutations locations))
    (h2 : sched2.Perm (permutations locations))
    (h3 : sched3.Perm (permutations locations)) :
    ((threaded_executor (fun p q => some (calculator p q)) locations
        sched1).output_records).Perm (basic_executor calculator locations)
    ∧ ((threadpool_executor (fun p q => some (calculator p q)) locations
        sched2 _THREAD_POOL).output_records).Perm
        (basic_executor calculator locations)
    ∧ ((multiprocessing_executor (fun p q => some (calculator p q)) locations
        sched3).output_records).Perm (basic_executor calculator locations) := by
  refine ⟨?_, ?_, ?_⟩
  · rw [threaded_executor_output]
    exact filterMap_sched_perm_basic calculator locations sched1 h1
  · rw [threadpool_executor_output]
    exact filterMap_sched_perm_basic calculator locations sched2 h2
  · rw [multiprocessing_executor_output]
    exact filterMap_sched_perm_basic calculator locations sched3 h3

/-- C1 witness: on the spec's three-point input, with each concurrent
executor run under the reversed schedule, the returned records are a
permutation of the sequential executor's output. -/
theorem C1_witness :
    ((threaded_executor (fun p q => some (zero_calculator p q))
        sample_locations (permutations sample_locations).reverse).output_records).Perm
      (basic_executor zero_calculator sample_locations)
    ∧ ((threadpool_executor (fun p q => some (zero_calculator p q))
        sample_locations (permutations sample_locations).reverse
        _THREAD_POOL).output_records).Perm
      (basic_executor zero_calculator sample_locations)
    ∧ ((multiprocessing_executor (fun p q => some (zero_calculator p q))
        sample_locations (permutations sample_locations).reverse).output_records).Perm
      (basic_executor zero_calculator sample_locations) :=
  C1_cross_variant_equivalence zero_calculator sample_locations _ _ _
    (List.reverse_perm _) (List.reverse_perm _) (List.reverse_perm _)

/-- C6: worker-pool failure isolation — when the calculator raises on some
tasks, every task is still processed and marked done, so the completion
barrier's outstanding count returns to zero and the call returns; under
any admissible scheduling the returned records are, as a multiset, exactly
the records of the non-failing pairs (the full set minus the failing
pairs' records). -/
theorem C6_threadpool_failure_isolation {α : Type}
    (calculator : Coordinates → Coordinates → Option α)
    (locations : List Location) (schedule : List (Location × Location))
    (h : schedule.Perm (permutations locations)) :
    ((threadpool_executor calculator locations schedule
        _THREAD_POOL).output_records).Perm
      ((permutations locations).filterMap (calculate_threaded calculator))
    ∧ (threadpool_executor calculator locations schedule
        _THREAD_POOL).pool.tasks_pending = 0 := by
  constructor
  · rw [threadpool_executor_output]
    exact h.filterMap _
  · rw [threadpool_executor_pending]
    have := h.length_eq
    simp [_THREAD_POOL, ThreadPool.start]
    omega

/-- C6 witness: on the three-point input with a calculator that raises
exactly on the pair (A, B), the worker-pool run returns (up to order) the
records of the two non-failing pairs and the barrier count is zero. -/
theorem C6_witness :
    ((threadpool_executor fails_on_AB sample_locations
        (permutations sample_locations).reverse _THREAD_POOL).output_records).Perm
      ((permutations sample_locations).filterMap (calculate_threaded fails_on_AB))
    ∧ (threadpool_executor fails_on_AB sample_locations
        (permutations sample_locations).reverse
        _THREAD_POOL).pool.tasks_pending = 0 :=
  C6_threadpool_failure_isolation fails_on_AB sample_locations _
    (List.reverse_perm _)

/-- C7 counterexample: after the worker-pool executor returns (three-point
input, trivial calculator, generation-order schedule), the pool workers it
employed are still live — the long-lived daemon workers of the global pool
are never joined, refuting "no worker it employed is still live". -/
theorem C7_counterexample :
    WorkerStatus.live ∈
      (threadpool_executor (fun p q => some (zero_calculator p q))
        sample_locations (permutations sample_locations)
        _THREAD_POOL).pool.threads := by
  decide

/-- C7 (amended): the thread-per-pair and multi-process executors join all
of their workers, so every worker they spawned has terminated when the
call returns; the worker-pool executor returns only once its completion
barrier reports zero outstanding tasks, but the two pool workers it
employed are long-lived daemon threads that remain live after it returns. -/
theorem C7_worker_lifecycle {α : Type}
    (calculator : Coordinates → Coordinates → Option α)
    (locations : List Location) (schedule : List (Location × Location))
    (h : schedule.Perm (permutations locations)) :
    (threaded_executor calculator locations schedule).threads =
      List.replicate (permutations locations).length WorkerStatus.terminated
    ∧ (multiprocessing_executor calculator locations schedule).processes =
      List.replicate (permutations locations).length WorkerStatus.terminated
    ∧ (threadpool_executor calculator locations schedule
        _THREAD_POOL).pool.tasks_pending = 0
    ∧ (threadpool_executor calculator locations schedule
        _THREAD_POOL).pool.threads = List.replicate 2 WorkerStatus.live := by
  refine ⟨?_, ?_, ?_, ?_⟩
  · simp [threaded_executor, map_const_replicate, List.length_replicate]
  · simp [multiprocessing_executor, spawn_fold, map_const_replicate,
      List.length_replicate]
  · rw [threadpool_executor_pending]
    have := h.length_eq
    simp [_THREAD_POOL, ThreadPool.start]
    omega
  · simp [threadpool_executor, _THREAD_POOL, ThreadPool.start]

/-- C7 witness: worker lifecycle on the three-point input under the
reversed schedule: spawned threads and processes all terminated, pool
barrier at zero, pool workers still live. -/
theorem C7_witness :
    (threaded_executor (fun p q => some (zero_calculator p q)) sample_locations
        (permutations sample_locations).reverse).threads =
      List.replicate (permutations sample_locations).length
        WorkerStatus.terminated
    ∧ (multiprocessing_executor (fun p q => some (zero_calculator p q))
        sample_locations (permutations sample_locations).reverse).processes =
      List.replicate (permutations sample_locations).length
        WorkerStatus.terminated
    ∧ (threadpool_executor (fun p q => some (zero_calculator p q))
        sample_locations (permutations sample_locations).reverse
        _THREAD_POOL).pool.tasks_pending = 0
    ∧ (threadpool_executor (fun p q => some (zero_calculator p q))
        sample_locations (permutations sample_locations).reverse
        _THREAD_POOL).pool.threads = List.replicate 2 WorkerStatus.live :=
  C7_worker_lifecycle (fun p q => some (zero_calculator p q)) sample_locations
    _ (List.reverse_perm _)

/-- C8 counterexample: on a four-point input (6 pairs) the multi-process
executor has 6 worker processes live at its join barrier — more than the
fixed pool size 2 that bounds the worker-pool variant, refuting that its
concurrency is bounded by the fixed pool size. -/
theorem C8_counterexample :
    (multiprocessing_executor (fun p q => some (zero_calculator p q))
        four_locations (permutations four_locations)).live_at_barrier = 6
    ∧ _THREAD_POOL.count = 2
    ∧ ¬ (6 ≤ 2) := by
  decide

/-- C8 (amended): the worker-pool executor is bounded — the global pool
has a fixed worker count of 2, independent of the input — but the
multi-process executor spawns one process per pair, all of which are live
at its join barrier: its concurrency equals N·(N-1)/2, growing with the
input rather than bounded by a fixed pool size. -/
theorem C8_bounded_concurrency {α : Type}
    (calculator : Coordinates → Coordinates → Option α)
    (locations : List Location) (schedule : List (Location × Location)) :
    _THREAD_POOL.count = 2
    ∧ (threadpool_executor calculator locations schedule
        _THREAD_POOL).pool.threads.length = 2
    ∧ (multiprocessing_executor calculator locations schedule).live_at_barrier =
        locations.length * (locations.length - 1) / 2 := by
  refine ⟨rfl, ?_, ?_⟩
  · simp [threadpool_executor, _THREAD_POOL, ThreadPool.start]
  · simp [multiprocessing_executor, spawn_fold, permutations_length,
      triangle_eq]

theorem permutations_take_succ {α : Type} (l : List α) (k : Nat) :
    permutations (l.take (k + 1)) =
      permutations (l.take k) ++ permutations_loop (l.take k) l[k]?.toList := by
  unfold permutations
  rw [List.take_succ, permutations_loop_append]
  simp

/-- C9: after the calculate stage has consumed k of the N input points it
has emitted exactly k·(k-1)/2 records cumulatively; consuming the next
point only appends records (the emission count is monotone); and on the
index input a pair (i, j) with i < j has been emitted once k points are
consumed exactly when j < k — i.e. only after point j has been read. -/
theorem C9_streaming_pipeline {α : Type}
    (calculator : Coordinates → Coordinates → α) (locations : List Location)
    (n k i j : Nat) (hk : k ≤ locations.length) :
    (_calculate_task calculator (locations.take k)).length = k * (k - 1) / 2
    ∧ (∃ t, _calculate_task calculator (locations.take (k + 1)) =
        _calculate_task calculator (locations.take k) ++ t)
    ∧ ((i, j) ∈ permutations_async ((List.range n).take k) ↔
        i < j ∧ j < min k n) := by
  refine ⟨?_, ?_, ?_⟩
  · simp [_calculate_task, permutations_async_eq, permutations_length,
      List.length_take, Nat.min_eq_left hk, triangle_eq]
  · refine ⟨(permutations_loop (locations.take k) locations[k]?.toList).map
      (fun pair =>
        { origin := pair.1.name, destination := pair.2.name,
          distance := calculator pair.1.coordinates pair.2.coordinates }), ?_⟩
    simp [_calculate_task, permutations_async_eq, permutations_take_succ]
  · rw [permutations_async_eq, List.take_range, permutations_range,
      mem_generation_order]

/-- C9 witness: with two of the three sample points consumed, exactly one
record (= 2·1/2) has been emitted, consuming the third point appends
further records, and the pair (0, 1) is among the emissions exactly
because point 1 has been read. -/
theorem C9_witness :
    (_calculate_task zero_calculator (sample_locations.take 2)).length =
      2 * (2 - 1) / 2
    ∧ (∃ t, _calculate_task zero_calculator (sample_locations.take (2 + 1)) =
        _calculate_task zero_calculator (sample_locations.take 2) ++ t)
    ∧ ((0, 1) ∈ permutations_async ((List.range 3).take 2) ↔
        0 < 1 ∧ 1 < min 2 3) :=
  C9_streaming_pipeline zero_calculator sample_locations 3 2 0 1 (by decide)

/-- C10: the equirectangular calculator does not compute the documented
planar small-angle approximation: the code computes
x = λ2 − λ1·cos((φ1+φ2)/2) — the longitude difference is not
parenthesized before the cosine scaling — so at the point (60°, 180°)
paired with itself it returns R·π/2 (about 10008 km) instead of 0, while
the spec's formula yields 0 on that same input. -/
theorem C10_equirectangular_slip :
    equirectangular DEFAULT_EARTH_RADIUS_KM point_60_180 point_60_180 =
      Real.pi / 2 * (DEFAULT_EARTH_RADIUS_KM : ℝ)
    ∧ equirectangular DEFAULT_EARTH_RADIUS_KM point_60_180 point_60_180 ≠ 0
    ∧ equirectangular_spec DEFAULT_EARTH_RADIUS_KM point_60_180
        point_60_180 = 0 := by
  have h60 : radians 60 = Real.pi / 3 := by
    unfold radians
    push_cast
    ring
  have h180 : radians 180 = Real.pi := by
    unfold radians
    push_cast
    ring
  have hmain : equirectangular DEFAULT_EARTH_RADIUS_KM point_60_180
      point_60_180 = Real.pi / 2 * (DEFAULT_EARTH_RADIUS_KM : ℝ) := by
    simp only [equirectangular, point_60_180, h60, h180]
    rw [show (Real.pi / 3 + Real.pi / 3) / 2 = Real.pi / 3 by ring,
      Real.cos_pi_div_three]
    rw [show (Real.pi - Real.pi * (1 / 2)) * (Real.pi - Real.pi * (1 / 2)) +
        (Real.pi / 3 - Real.pi / 3) * (Real.pi / 3 - Real.pi / 3) =
        (Real.pi / 2) ^ 2 by ring]
    rw [Real.sqrt_sq (by positivity : (0:ℝ) ≤ Real.pi / 2)]
  have hR : (0:ℝ) < (DEFAULT_EARTH_RADIUS_KM : ℝ) := by
    unfold DEFAULT_EARTH_RADIUS_KM
    norm_num
  refine ⟨hmain, ?_, ?_⟩
  · rw [hmain]
    exact ne_of_gt (mul_pos (by positivity) hR)
  · simp [equirectangular_spec, point_60_180]

end DistanceMatrix
